import Mathlib

/-!
Shallow embedding of the `conan-extensions` vulnerability-audit commands.

The repository consists of Conan CLI extensions that query vulnerability
databases (OSV and a GraphQL "Catalog" service) for the packages of a
dependency graph and render the results.  This file embeds the pure control
flow of those commands — request loops, payload selection, tag extraction,
deduplication and rendering — as executable Lean definitions.  Network I/O
(the `requests.post`/`requests.get` calls) is modelled by explicit response
oracles passed as function arguments; each embedded loop additionally
returns the list of requests it issued, so that theorems can speak about
which queries were sent and in which order.

Sources embedded:
- `extensions/commands/audit/cmd_catalog.py`  (proxy catalog client)
- `extensions/commands/audit/cmd_osv.py`      (transitive OSV audit)
- `extensions/commands/security/cmd_osv.py`   (single-package OSV audit)
- `extensions/commands/security/cmd_audit.py` (older audit revision)
- `extensions/commands/security/cmd_catalog.py` (GraphQL catalog command)
-/

/-- One OSV vulnerability object as consumed by the renderers: the
`{"id": ..., "details": ...}` entries of the `vulns` array. -/
structure OsvVuln where
  id : String
  details : String
deriving DecidableEq, Repr

/-- JSON values stored in the dictionaries the commands build and pass
around.  Only the shapes the code actually reads are represented: plain
strings and arrays of vulnerability objects. -/
inductive JVal where
  | s (v : String)
  | vulnList (vs : List OsvVuln)
deriving DecidableEq, Repr

/-- A JSON object, i.e. a Python dict: ordered key/value pairs (Python
dicts preserve insertion order). -/
abbrev Obj := List (String × JVal)

/-- Python `d.get(k)` / `k in d` lookup on a dict. -/
def objGet (d : Obj) (k : String) : Option JVal :=
  (d.find? (fun kv => kv.1 == k)).map (fun kv => kv.2)

/-- Python `d.update(u)`: keys already present keep their position and take
`u`'s value; new keys are appended in `u`'s order. -/
def dictUpdate (d u : Obj) : Obj :=
  d.map (fun kv =>
    match objGet u kv.1 with
    | some v => (kv.1, v)
    | none => kv)
  ++ u.filter (fun kv => (objGet d kv.1).isNone)

instance {ε α : Type} [DecidableEq ε] [DecidableEq α] : DecidableEq (Except ε α) := by
  intro a b
  cases a <;> cases b
  case error.error x y | ok.ok x y =>
    exact if h : x = y then .isTrue (by rw [h]) else .isFalse (by simp [h])
  all_goals exact .isFalse (fun h => Except.noConfusion h)

/-- Helper for `substr`: does `pat` occur as a contiguous run of `cs`? -/
def substrAux (pat : List Char) : List Char → Bool
  | [] => pat.isEmpty
  | c :: rest => pat.isPrefixOf (c :: rest) || substrAux pat rest

/-- Python substring test `needle in hay` on strings. -/
def substr (needle hay : String) : Bool :=
  substrAux needle.toList hay.toList

/-! ## Proxy catalog client (`audit/cmd_catalog.py`, `get_proxy_vulnerabilities`)

The client loops over the package references, POSTs one query per
reference, merges `response.json()["data"]` into the accumulated result on
HTTP 200, logs and possibly aborts on HTTP 429, and silently skips any
other status.  The HTTP layer is modelled by a `respond` oracle giving, for
each reference, the status code, the `data` object of the JSON body, and
the optional `Retry-After` header. -/

/-- The observable response for one proxy query. -/
structure ProxyResp where
  status : Nat
  data : Obj
  retryAfter : Option String
deriving Repr

/-- Observable state of one `get_proxy_vulnerabilities` run: the
accumulated `result["data"]` dict, the references queried so far (one POST
each, in order), and the console messages printed. -/
structure ProxyState where
  data : Obj
  queried : List String
  log : List String
deriving DecidableEq, Repr

/-- The guidance printed on HTTP 429 when no token was supplied
(`audit/cmd_catalog.py:115-116`). -/
def tokenGuidance : List String :=
  ["Please provide a token to increase the rate limit.",
   "You can get one from the Conan Catalog Page"]

/-- Python truthiness of an optional string: `None` and the empty string
are falsy. -/
def pyTruthy : Option String → Bool
  | some s => !(s == "")
  | none => false

/-- Retry-After console messages for a 429 response
(`audit/cmd_catalog.py:111-113`): the hint line is printed only when the
`Retry-After` header is truthy (`if response.headers.get("Retry-After"):`),
so a missing or empty header prints nothing. -/
def rateLimitLog (retryAfter : Option String) : List String :=
  "Rate limit exceeded" ::
    (if pyTruthy retryAfter then
      ["Retry after " ++ retryAfter.getD "" ++ " seconds"]
     else [])

/-- The `for ref in refs` loop of `get_proxy_vulnerabilities`
(`audit/cmd_catalog.py:99-118`): status 200 merges the data; status 429
logs the rate limit and, when the token is falsy (`if not token:` — `None`
or the empty string), breaks out of the loop; any other status falls
through to the next reference. -/
def proxyLoop (token : Option String) (respond : String → ProxyResp) :
    List String → ProxyState → ProxyState
  | [], st => st
  | r :: rest, st =>
    let resp := respond r
    let st1 : ProxyState := { st with queried := st.queried ++ [r] }
    if resp.status = 200 then
      proxyLoop token respond rest { st1 with data := dictUpdate st1.data resp.data }
    else if resp.status = 429 then
      let st2 : ProxyState := { st1 with log := st1.log ++ rateLimitLog resp.retryAfter }
      if !(pyTruthy token) then
        { st2 with log := st2.log ++ tokenGuidance }
      else
        proxyLoop token respond rest st2
    else
      proxyLoop token respond rest st1

/-- `get_proxy_vulnerabilities(refs, token)` (`audit/cmd_catalog.py:82-120`):
runs the query loop starting from the empty `{"data": {}}` result. -/
def get_proxy_vulnerabilities (refs : List String) (token : Option String)
    (respond : String → ProxyResp) : ProxyState :=
  proxyLoop token respond refs ⟨[], [], []⟩

/-! ## Reference deduplication (`audit/cmd_catalog.py:205-209`)

The `catalog` command collects `f"{name}/{version}"` strings for the graph
nodes and deduplicates them with `list(set(...))`.  A Python `set`
deduplicates, but its iteration order is the hash-table order, which is
unrelated to insertion order (and, for strings, randomized per process).
The hash-table order is modelled by an explicit enumeration `tableOrder`;
`list(set(xs))` returns the elements of `xs` in that order. -/

/-- Embedding of `list(set(xs))`: the distinct members of `xs`, listed in
hash-table order `tableOrder` (a duplicate-free enumeration covering the
possible elements). -/
def list_set (tableOrder : List String) (xs : List String) : List String :=
  tableOrder.filter (fun s => xs.contains s)

/-- The refs computed for the transitive/direct dependency lists
(`audit/cmd_catalog.py:206,209`): map each node to `name ++ "/" ++ version`
and deduplicate through a Python set. -/
def catalogRefs (tableOrder : List String) (nodes : List (String × String)) : List String :=
  list_set tableOrder (nodes.map (fun nv => nv.1 ++ "/" ++ nv.2))

/-- Spec-side definition (for comparison only): deduplication by first
occurrence, preserving first-seen order. -/
def firstSeenDedupAux : List String → List String → List String
  | _, [] => []
  | seen, x :: xs =>
    if seen.contains x then firstSeenDedupAux seen xs
    else x :: firstSeenDedupAux (x :: seen) xs

/-- Spec-side definition: "Deduplicates input by `(name, version)`,
preserving first-seen order." -/
def firstSeenDedup (xs : List String) : List String := firstSeenDedupAux [] xs

/-! ## Tag extraction (`security/cmd_osv.py:69-74`, `security/cmd_audit.py:166-169`,
`audit/cmd_osv.py:103-114`)

The extraction regex is
`/download/(v?\d+\.\d+\.\d+)/|/archive/(v?\d+\.\d+\.\d+)\.tar\.gz|/tags/(.+)\.tar\.gz`,
applied with `re.search`: positions are scanned left to right and, at each
position, the three alternatives are tried in order; the group of the first
successful alternative is returned.  The matcher below implements exactly
those semantics for this fixed pattern (with `\d` read as an ASCII digit
and `.` as any character other than a newline, which agree on URLs). -/

/-- Split a maximal (possibly empty) leading digit run off a char list. -/
def takeDigits : List Char → List Char × List Char
  | [] => ([], [])
  | c :: cs =>
    if c.isDigit then
      let (d, r) := takeDigits cs
      (c :: d, r)
    else ([], c :: cs)

/-- `\d+`: a nonempty maximal digit run. -/
def matchNum (cs : List Char) : Option (List Char × List Char) :=
  let (d, r) := takeDigits cs
  if d.isEmpty then none else some (d, r)

/-- `\d+\.\d+\.\d+`: three digit runs separated by literal dots. -/
def matchDotted (cs : List Char) : Option (List Char × List Char) :=
  match matchNum cs with
  | none => none
  | some (d1, r1) =>
    match r1 with
    | '.' :: r2 =>
      match matchNum r2 with
      | none => none
      | some (d2, r3) =>
        match r3 with
        | '.' :: r4 =>
          match matchNum r4 with
          | none => none
          | some (d3, r5) => some (d1 ++ '.' :: d2 ++ '.' :: d3, r5)
        | _ => none
    | _ => none

/-- `v?\d+\.\d+\.\d+`.  When the text starts with `v` but the dotted part
fails after it, backtracking to the empty `v?` cannot succeed either, since
`v` is not a digit. -/
def matchVerNum (cs : List Char) : Option (List Char × List Char) :=
  match cs with
  | 'v' :: rest =>
    (matchDotted rest).map (fun dr => ('v' :: dr.1, dr.2))
  | _ => matchDotted cs

/-- Strip a literal pattern off the front of a char list. -/
def stripPre : List Char → List Char → Option (List Char)
  | [], cs => some cs
  | _ :: _, [] => none
  | p :: ps, c :: cs => if p = c then stripPre ps cs else none

/-- Alternative 1: `/download/(v?\d+\.\d+\.\d+)/`. -/
def altDownload (cs : List Char) : Option (List Char) :=
  match stripPre "/download/".toList cs with
  | none => none
  | some r1 =>
    match matchVerNum r1 with
    | some (m, '/' :: _) => some m
    | _ => none

/-- Alternative 2: `/archive/(v?\d+\.\d+\.\d+)\.tar\.gz`. -/
def altArchive (cs : List Char) : Option (List Char) :=
  match stripPre "/archive/".toList cs with
  | none => none
  | some r1 =>
    match matchVerNum r1 with
    | some (m, r2) => if ".tar.gz".toList.isPrefixOf r2 then some m else none
    | none => none

/-- The greedy group of `(.+)\.tar\.gz`: the longest nonempty newline-free
leading run that is immediately followed by `.tar.gz`. -/
def tagsGroup (cs : List Char) : Option (List Char) :=
  ((List.range (cs.length + 1)).reverse.find? (fun j =>
      decide (1 ≤ j) &&
      (cs.take j).all (fun c => c != '\n') &&
      ".tar.gz".toList.isPrefixOf (cs.drop j))).map (fun j => cs.take j)

/-- Alternative 3: `/tags/(.+)\.tar\.gz`. -/
def altTags (cs : List Char) : Option (List Char) :=
  match stripPre "/tags/".toList cs with
  | none => none
  | some r1 => tagsGroup r1

/-- `re.search` of the fixed pattern: scan positions left to right, trying
the three alternatives in order at each position, and return the matched
group. -/
def searchTag : List Char → Option String
  | [] => none
  | c :: cs =>
    match altDownload (c :: cs) <|> altArchive (c :: cs) <|> altTags (c :: cs) with
    | some m => some (String.mk m)
    | none => searchTag cs

namespace SecOsv

/-- `extract_tag(url)` (`security/cmd_osv.py:69-74`; `security/cmd_audit.py:166-169`
is textually identical): search the URL for the pattern and return the
matched group, or `None` when nothing matches. -/
def extract_tag (url : String) : Option String :=
  searchTag url.toList

end SecOsv

namespace AuditOsv

/-- `extract_tag(urls)` (`audit/cmd_osv.py:103-114`): wrap a single URL into
a list, keep only URLs containing `"github"`, and search the first of
those; with no github URL the function returns `None`. -/
def extract_tag (urls : List String) : Option String :=
  match urls.filter (fun u => substr "github" u) with
  | [] => none
  | u :: _ => searchTag u.toList

end AuditOsv

/-- Python `opt or default` for an optional string: `None` and the empty
string are falsy. -/
def pyOrStr (o : Option String) (d : String) : String :=
  match o with
  | some s => if s = "" then d else s
  | none => d

/-- The tag used by the commit flow of `security/cmd_osv.py:112`
(`tag = extract_tag(url) or str(ref_to_audit.version)`): fall back to the
literal version string when the regex does not match. -/
def sec_tag (url version : String) : String :=
  pyOrStr (SecOsv.extract_tag url) version

/-! ## Commit resolution (`security/cmd_osv.py:77-96`, `security/cmd_audit.py:172-177`,
`audit/cmd_osv.py:84-100`)

`get_commit_hash` joins `url.split("/")[3:5]` into an `org/project` pair,
GETs the GitHub tag-reference endpoint, follows the `object.url`
indirection, and reads the commit SHA.  Python evaluates the default
argument of `.get(key, default)` eagerly, so the commit URL is fetched
twice.  The GitHub API is modelled by an oracle from URLs to parsed
responses; each embedding also returns the list of URLs it requested. -/

/-- Python `url.split("/")` on characters: split on `'/'`, keeping empty
fields. -/
def splitSlash : List Char → List (List Char)
  | [] => [[]]
  | c :: rest =>
    if c = '/' then [] :: splitSlash rest
    else
      match splitSlash rest with
      | s :: ss => (c :: s) :: ss
      | [] => [[c]]

/-- Python `"/".join(segs)`. -/
def joinSlash : List (List Char) → List Char
  | [] => []
  | [x] => x
  | x :: xs => x ++ '/' :: joinSlash xs

/-- `"/".join(url.split("/")[3:5])` on a char list. -/
def orgProjL (cs : List Char) : List Char :=
  joinSlash (((splitSlash cs).drop 3).take 2)

/-- The `org_project` value computed by every `get_commit_hash` variant. -/
def org_project (url : String) : String :=
  String.mk (orgProjL url.toList)

/-- The GitHub tag-reference endpoint URL built by `get_commit_hash`. -/
def ghRefUrl (url tag : String) : String :=
  "https://api.github.com/repos/" ++ org_project url ++ "/git/ref/tags/" ++ tag

/-- The `"object"` field of a GitHub API response, with the two keys the
code reads. -/
structure GhObjField where
  url : Option String
  sha : Option String
deriving DecidableEq, Repr

/-- A parsed GitHub API response, restricted to the fields the code reads:
the `"object"` sub-object and a top-level `"sha"`. -/
structure GhResp where
  object : Option GhObjField
  sha : Option String
deriving DecidableEq, Repr

/-- A GitHub API oracle: the parsed JSON body for each GET, or an error for
a network/JSON failure. -/
abbrev GhFun := String → Except String GhResp

/-- The shared `try` body of `get_commit_hash` in `security/cmd_osv.py` and
`audit/cmd_osv.py`: GET the tag reference, read `["object"]["url"]`
(a `KeyError` when absent), then evaluate
`get(commit_url).json().get("object", {}).get("sha", get(commit_url).json().get("sha"))`
— the default argument is evaluated eagerly, so the commit URL is fetched a
second time before the outer `.get` resolves.  `.error ()` stands for any
exception escaping the body; the second component lists the URLs
requested. -/
def gh_body_at (gh : GhFun) (refUrl : String) :
    Except Unit (Option String) × List String :=
  match gh refUrl with
  | .error _ => (.error (), [refUrl])
  | .ok j1 =>
    match j1.object with
    | none => (.error (), [refUrl])
    | some o1 =>
      match o1.url with
      | none => (.error (), [refUrl])
      | some commitUrl =>
        match gh commitUrl with
        | .error _ => (.error (), [refUrl, commitUrl])
        | .ok j2 =>
          match gh commitUrl with
          | .error _ => (.error (), [refUrl, commitUrl, commitUrl])
          | .ok j3 =>
            let res : Option String :=
              match j2.object with
              | some o2 =>
                match o2.sha with
                | some s => some s
                | none => j3.sha
              | none => j3.sha
            (.ok res, [refUrl, commitUrl, commitUrl])

/-- The shared `try` body applied at the tag-reference URL the code
builds from `url` and `tag`. -/
def gh_try_body (gh : GhFun) (url tag : String) :
    Except Unit (Option String) × List String :=
  gh_body_at gh (ghRefUrl url tag)

/-- The `ConanException` message raised by `security/cmd_osv.py:93-96`
(the two source literals are adjacent, so no space separates the
sentences). -/
def conanCommitMsg (tag : String) : String :=
  "There was an error trying to get commit hash from the '" ++ tag ++ "' tag." ++
    "Please, try to provide the commit hash in the --use-commit argument"

/-- `get_commit_hash(url, tag)` of `security/cmd_osv.py:77-96`: the shared
body wrapped in `try/except` raising a `ConanException`. -/
def sec_get_commit_hash (gh : GhFun) (url tag : String) :
    Except String (Option String) × List String :=
  match gh_try_body gh url tag with
  | (.ok r, q) => (.ok r, q)
  | (.error _, q) => (.error (conanCommitMsg tag), q)

/-- `get_commit_hash(url, tag)` of `audit/cmd_osv.py:84-100`: the shared
body wrapped in `try/except Exception: pass`, so every failure collapses to
`None`. -/
def audit_get_commit_hash (gh : GhFun) (url tag : String) : Option String :=
  match (gh_try_body gh url tag).1 with
  | .ok r => r
  | .error _ => none

/-- `get_commit_hash(url, tag)` of `security/cmd_audit.py:172-177`: no
`try/except`, and the default argument is `json()['sha']` (an index, raising
`KeyError` when absent) rather than `.get('sha')`; being a default argument
it is evaluated eagerly, so a missing top-level `sha` on the second fetch
fails the call even when `object.sha` is present. -/
def aud_body_at (gh : GhFun) (refUrl : String) :
    Except String String × List String :=
  match gh refUrl with
  | .error e => (.error e, [refUrl])
  | .ok j1 =>
    match j1.object with
    | none => (.error "KeyError: object", [refUrl])
    | some o1 =>
      match o1.url with
      | none => (.error "KeyError: url", [refUrl])
      | some commitUrl =>
        match gh commitUrl with
        | .error e => (.error e, [refUrl, commitUrl])
        | .ok j2 =>
          match gh commitUrl with
          | .error e => (.error e, [refUrl, commitUrl, commitUrl])
          | .ok j3 =>
            match j3.sha with
            | none => (.error "KeyError: sha", [refUrl, commitUrl, commitUrl])
            | some d =>
              let res : String :=
                match j2.object with
                | some o2 =>
                  match o2.sha with
                  | some s => s
                  | none => d
                | none => d
              (.ok res, [refUrl, commitUrl, commitUrl])

/-- `get_commit_hash(url, tag)` of `security/cmd_audit.py`, applied at the
tag-reference URL built from `url` and `tag`. -/
def aud_get_commit_hash (gh : GhFun) (url tag : String) :
    Except String String × List String :=
  aud_body_at gh (ghRefUrl url tag)

/-! ## OSV query payloads (`security/cmd_osv.py:99-123`,
`security/cmd_audit.py:137-155`, `audit/cmd_osv.py:69-81,116-140`)

An OSV query body is either the registry form
`{"package": {"name": name}, "version": version}` or the commit form
`{"commit": hash}`.  `security/cmd_osv.py` can send `{"commit": None}`
when the SHA lookup chain yields `None`, so the commit value is an
`Option`.  The `conandata.yml` lookup (`["sources"][version][0]["url"]`
with its `KeyError` fallback) is modelled by a `sourceUrl` oracle; `none`
stands for a missing/None URL. -/

/-- An OSV query payload: exactly the two JSON shapes the code builds. -/
inductive OsvPayload where
  | registry (name version : String)
  | commit (h : Option String)
deriving DecidableEq, Repr

/-- Is this payload the registry `{"package", "version"}` form? -/
def OsvPayload.isReg : OsvPayload → Bool
  | .registry _ _ => true
  | .commit _ => false

/-- Is this payload the `{"commit"}` form? -/
def OsvPayload.isCom : OsvPayload → Bool
  | .registry _ _ => false
  | .commit _ => true

/-- Collaborators of `security/cmd_osv.py`'s `get_osv_payload`: the
`conandata.yml` download URL per (name, version), and the GitHub API. -/
structure SecOsvEnv where
  sourceUrl : String → String → Option String
  gh : GhFun

/-- `get_osv_payload(conan_api, ref_to_audit, use_commit)`
(`security/cmd_osv.py:99-123`).  `use_commit` is `None`, `"autodetect"`
(bare `--use-commit`), or an explicit hash; the version string containing
`"cci"` or `use_commit == "autodetect"` selects the commit flow; an
explicit truthy `use_commit` is passed through; otherwise the registry
payload is built.  Errors are the exceptions the flow can raise
(`KeyError` on a missing conandata URL, `"No tags found"`, and the
`ConanException` of `get_commit_hash`). -/
def sec_get_osv_payload (env : SecOsvEnv) (name version : String)
    (use_commit : Option String) : Except String OsvPayload :=
  if substr "cci" version || use_commit == some "autodetect" then
    match env.sourceUrl name version with
    | none => .error "KeyError: conandata url"
    | some url =>
      let tag := sec_tag url version
      if tag = "" then .error "No tags found"
      else
        match (sec_get_commit_hash env.gh url tag).1 with
        | .ok h => .ok (.commit h)
        | .error e => .error e
  else
    match use_commit with
    | some c => if c = "" then .ok (.registry name version) else .ok (.commit (some c))
    | none => .ok (.registry name version)

/-- `get_osv_payload(conan_api, ref_to_audit, use_commit)` of
`security/cmd_audit.py:137-155`: same structure with a boolean
`use_commit`, delegating to the uncaught `get_commit_hash` variant. -/
def aud_get_osv_payload (env : SecOsvEnv) (name version : String)
    (use_commit : Bool) : Except String OsvPayload :=
  if substr "cci" version || use_commit then
    match env.sourceUrl name version with
    | none => .error "KeyError: conandata url"
    | some url =>
      let tag := sec_tag url version
      if tag = "" then .error "No tags found"
      else
        match (aud_get_commit_hash env.gh url tag).1 with
        | .ok h => .ok (.commit (some h))
        | .error e => .error e
  else .ok (.registry name version)

/-! ## Transitive OSV audit (`audit/cmd_osv.py:69-81,116-140,161-173`) -/

/-- Collaborators of `audit/cmd_osv.py`: the OSV endpoint (one parsed JSON
body per POSTed payload), the `conandata.yml` URL lookup, and the GitHub
API. -/
structure AuditOsvEnv where
  osvResp : OsvPayload → Obj
  sourceUrl : String → String → Option String
  gh : GhFun

/-- `get_osv_payload(conan_api, ref, by_commit=True)`
(`audit/cmd_osv.py:116-135`): look up the download URL (`if url:` — `None`
and `""` are falsy), extract a tag with the github-filtered `extract_tag`,
resolve the commit hash (failures collapse to `None`), and build
`{"commit": hash}` only when every step produced a truthy value; otherwise
the function returns the empty dict, modelled as `none`. -/
def audit_osv_payload_commit (env : AuditOsvEnv) (name version : String) :
    Option OsvPayload :=
  match env.sourceUrl name version with
  | none => none
  | some url =>
    if url = "" then none
    else
      match AuditOsv.extract_tag [url] with
      | none => none
      | some tag =>
        if tag = "" then none
        else
          match audit_get_commit_hash env.gh url tag with
          | none => none
          | some h => if h = "" then none else some (.commit (some h))

/-- The commit-query half of `get_vulnerabilities`
(`audit/cmd_osv.py:76-81`): POST the commit payload when one was built
(`if (osv_payload):`), return its body when truthy, else the empty dict.
`sent` carries the payloads already POSTed for this package. -/
def audit_commit_branch (env : AuditOsvEnv) (name version : String)
    (sent : List OsvPayload) : Obj × List OsvPayload :=
  match audit_osv_payload_commit env name version with
  | some p =>
    let r := env.osvResp p
    (if r.isEmpty then [] else r, sent ++ [p])
  | none => ([], sent)

/-- `get_vulnerabilities(conan_api, dep)` (`audit/cmd_osv.py:69-81`): when
the version does not contain `"cci"`, POST the registry payload first and
return its body if truthy; otherwise — including when the registry response
was empty — fall through to the commit branch.  Returns the report body and
the payloads POSTed for this package. -/
def get_vulnerabilities (env : AuditOsvEnv) (name version : String) :
    Obj × List OsvPayload :=
  if substr "cci" version then audit_commit_branch env name version []
  else
    let p := OsvPayload.registry name version
    let r := env.osvResp p
    if r.isEmpty then audit_commit_branch env name version [p]
    else (r, [p])

/-- The report built for one dependency (`audit/cmd_osv.py:168-169`):
`data_json.update({"ref": str(dep.ref)})`. -/
def audit_osv_report (env : AuditOsvEnv) (name version : String) : Obj :=
  dictUpdate (get_vulnerabilities env name version).1
    [("ref", JVal.s (name ++ "/" ++ version))]

/-- The `for dep in root.transitive_deps` loop of the `osv` command
(`audit/cmd_osv.py:164-173`): one report per dependency, appended in
order, with all POSTed payloads collected. -/
def audit_osv_run (env : AuditOsvEnv) :
    List (String × String) → List Obj × List OsvPayload
  | [] => ([], [])
  | (n, v) :: rest =>
    let rq := get_vulnerabilities env n v
    let rec' := audit_osv_run env rest
    (audit_osv_report env n v :: rec'.1, rq.2 ++ rec'.2)

/-! ## GraphQL catalog command (`security/cmd_catalog.py:131-195`) -/

/-- One GraphQL request of the `catalog` command: endpoint, basic-auth
credentials, and the query variables `{name, type: "conan", version}`
(the fixed GraphQL document itself is a display constant and is not
modelled). -/
structure GqlQuery where
  url : String
  auth : Option (String × String)
  name : String
  version : String
deriving DecidableEq, Repr

/-- The `ConanException` message for a missing catalog URL
(`security/cmd_catalog.py:174`). -/
def catalogUrlMsg : String :=
  "Please specify the catalog url via the '--catalog-url' argument or the CATALOG_URL environment variable"

/-- The `for dep in dependencies` loop of the `catalog` command
(`security/cmd_catalog.py:164-195`): per dependency, raise when no catalog
URL is configured (flag or environment), build the basic-auth pair when
both username and password are truthy, POST the query, and append
`response.json()` to the result list.  `respond` is the endpoint oracle;
the second component lists the requests issued. -/
def sec_catalog_loop {α : Type} (catalog_url username password : Option String)
    (respond : GqlQuery → α) :
    List (String × String) → List α → List GqlQuery →
      Except String (List α) × List GqlQuery
  | [], acc, qs => (.ok acc, qs)
  | (n, v) :: rest, acc, qs =>
    match catalog_url with
    | none => (.error catalogUrlMsg, qs)
    | some cu =>
      let auth : Option (String × String) :=
        match username, password with
        | some u, some p => if u = "" || p = "" then none else some (u, p)
        | _, _ => none
      let q : GqlQuery := ⟨cu, auth, n, v⟩
      sec_catalog_loop catalog_url username password respond rest
        (acc ++ [respond q]) (qs ++ [q])

/-- The `catalog` command body after graph expansion
(`security/cmd_catalog.py:160-195`): run the query loop over the
dependency (name, version) list with an empty accumulator. -/
def sec_catalog_run {α : Type} (catalog_url username password : Option String)
    (respond : GqlQuery → α) (deps : List (String × String)) :
    Except String (List α) × List GqlQuery :=
  sec_catalog_loop catalog_url username password respond deps [] []

/-! ## Renderers

Each `display_vulnerabilities` is embedded as a pure function from its
input data to the rows added to the `rich` table, the entries of the
"no vulnerabilities found" summary list, and the total count.  Row text
carries the strings interpolated by the code; descriptions are recorded as
passed to `textwrap.shorten` (display truncation is not modelled). -/

/-- A row of the vulnerabilities table: either a `(None, text)` package
header row or an `(id, details)` finding row. -/
inductive Row where
  | header (text : String)
  | vulnRow (id : String) (details : String)
deriving DecidableEq, Repr

/-- Python `str(x)` for an optional string (`str(None) = "None"`). -/
def pyStrOpt : Option String → String
  | some s => s
  | none => "None"

/-- The outcome of a text rendering: table rows, "no vulnerabilities found
in" entries, total finding count, and whether the table was printed. -/
structure RenderOut where
  rows : List Row
  noVulnRefs : List String
  total : Nat
  tableShown : Bool
deriving DecidableEq, Repr

/-- Input of `audit/cmd_osv.py`'s renderer: one dict per package, read via
`data_json.get("vulns", [])` and `data_json.get('ref')`. -/
structure OsvReportJson where
  vulns : List OsvVuln
  ref : Option String
deriving DecidableEq, Repr

/-- The rows contributed by one package with findings
(`audit/cmd_osv.py:29-40`): a red header followed by one row per finding,
in response order (this variant does not sort). -/
def osvRowsOf (dj : OsvReportJson) : List Row :=
  Row.header ("[red]" ++ pyStrOpt dj.ref ++ ": " ++ toString dj.vulns.length ++ " vulnerabilities[/]\n")
    :: dj.vulns.map (fun v => Row.vulnRow v.id v.details)

/-- Loop body of `display_vulnerabilities` (`audit/cmd_osv.py:25-42`). -/
def audit_osv_render_step (acc : RenderOut) (dj : OsvReportJson) : RenderOut :=
  if dj.vulns.isEmpty then
    { acc with noVulnRefs := acc.noVulnRefs ++ ["[green]" ++ pyStrOpt dj.ref ++ "[/]"] }
  else
    { acc with rows := acc.rows ++ osvRowsOf dj, total := acc.total + dj.vulns.length }

/-- `display_vulnerabilities(list_of_data_json)` (`audit/cmd_osv.py:16-57`):
packages with findings fill the table; packages without findings are
collected into the "No vulnerabilities found in" summary; the table is
printed only when at least one finding was added. -/
def audit_osv_render (reports : List OsvReportJson) : RenderOut :=
  let acc := reports.foldl audit_osv_render_step ⟨[], [], 0, false⟩
  { acc with tableShown := decide (0 < acc.total) }

/-- A vulnerability node of the proxy catalog response
(`audit/cmd_catalog.py:45-52`): `{name, description, references}`. -/
structure CatNode where
  name : String
  description : String
  references : List String
deriving DecidableEq, Repr

/-- One `library_data` value of the proxy result's `data` dict:
`{version, vulnerabilities: {edges: [...]}}`. -/
structure CatLib where
  version : String
  edges : List CatNode
deriving DecidableEq, Repr

/-- The proxy result consumed by `audit/cmd_catalog.py`'s renderer:
whether an `"errors"` key is present, and the `"data"` dict (`none`
models a missing or `null` `"data"` entry; an empty/falsy input also
takes the early-return branch, covered by `none`). -/
structure CatResult where
  errorsKey : Bool
  data : Option (List (String × CatLib))
deriving DecidableEq, Repr

/-- The rows contributed by one library with findings
(`audit/cmd_catalog.py:36-52`): a red header, then one row per finding
sorted by vulnerability name (`sorted(..., key=lambda x: x["node"]["name"])`;
`List.insertionSort` is stable, like Python's `sorted`).  The link styling
of the name cell is display-only and not modelled. -/
def catRowsOf (libKey : String) (lib : CatLib) : List Row :=
  Row.header ("[red]" ++ libKey ++ "/" ++ lib.version ++ ": " ++
      toString lib.edges.length ++ " vulnerabilities[/]\n")
    :: (lib.edges.insertionSort (fun a b => a.name ≤ b.name)).map
        (fun n => Row.vulnRow n.name n.description)

/-- Loop body of `display_vulnerabilities` (`audit/cmd_catalog.py:33-55`). -/
def audit_catalog_render_step (acc : RenderOut) (kv : String × CatLib) : RenderOut :=
  if kv.2.edges.isEmpty then
    { acc with noVulnRefs := acc.noVulnRefs ++ ["[white]" ++ kv.1 ++ "/" ++ kv.2.version ++ "[/]"] }
  else
    { acc with rows := acc.rows ++ catRowsOf kv.1 kv.2,
               total := acc.total + kv.2.edges.length }

/-- `display_vulnerabilities(list_of_data_json)`
(`audit/cmd_catalog.py:17-75`): with errors, or no usable `"data"`, print
"No vulnerabilities found" and return; otherwise libraries with findings
fill the table (printed only when some finding exists) and the rest are
listed in the "No vulnerabilities found in" summary.  The boolean result
component records whether the early guard fired. -/
def audit_catalog_render (res : CatResult) : RenderOut × Bool :=
  if res.errorsKey then (⟨[], [], 0, false⟩, true)
  else
    match res.data with
    | none => (⟨[], [], 0, false⟩, true)
    | some items =>
      let acc := items.foldl audit_catalog_render_step ⟨[], [], 0, false⟩
      ({ acc with tableShown := decide (0 < acc.total) }, false)

/-- A vulnerability node of the GraphQL catalog response
(`security/cmd_catalog.py:56-63`): `{name, description, severity}`. -/
structure SecCatNode where
  name : String
  description : String
  severity : String
deriving DecidableEq, Repr

/-- One `packageVersion` object of a GraphQL catalog response. -/
structure SecCatPkgVer where
  pkgName : String
  version : String
  edges : List SecCatNode
deriving DecidableEq, Repr

/-- A table row of `security/cmd_catalog.py`'s renderer.  Note that this
variant adds a `"no vulnerabilities found"` row to the table itself for a
package without findings (`security/cmd_catalog.py:65-72`) — it has no
separate summary list. -/
inductive SecCatRow where
  | header (text : String)
  | vuln (name description severity : String)
  | noVulnNote (text : String)
deriving DecidableEq, Repr

/-- Loop body of `display_vulnerabilities`
(`security/cmd_catalog.py:33-72`): malformed entries are skipped; the
running total is increased by the finding count BEFORE the emptiness test,
and the header row interpolates that running total. -/
def sec_catalog_render_step (acc : List SecCatRow × Nat)
    (item : Option SecCatPkgVer) : List SecCatRow × Nat :=
  match item with
  | none => acc
  | some pv =>
    let total := acc.2 + pv.edges.length
    if pv.edges.isEmpty then
      (acc.1 ++ [SecCatRow.noVulnNote
        ("[green]" ++ pv.pkgName ++ "/" ++ pv.version ++ ": no vulnerabilities found[/]")], total)
    else
      (acc.1 ++
        SecCatRow.header ("[red]" ++ pv.pkgName ++ "/" ++ pv.version ++ ": " ++
            toString total ++ " vulnerabilities found[/]")
        :: (pv.edges.insertionSort (fun a b => a.name ≤ b.name)).map
            (fun n => SecCatRow.vuln n.name n.description n.severity), total)

/-- `display_vulnerabilities(list_of_data_json)`
(`security/cmd_catalog.py:14-78`): every package — with or without
findings — contributes rows to the single table, which is always
printed. -/
def sec_catalog_render (items : List (Option SecCatPkgVer)) : List SecCatRow × Nat :=
  items.foldl sec_catalog_render_step ([], 0)

/-! ## Theorems -/

/-- Characterization helper: the `result["data"]` dict accumulated over a
run that visits every listed reference — only 200 responses contribute. -/
def proxyDataFold (respond : String → ProxyResp) (d : Obj) (refs : List String) : Obj :=
  refs.foldl
    (fun acc r => if (respond r).status = 200 then dictUpdate acc (respond r).data else acc) d

/-- Characterization helper: the console log of a run that visits every
listed reference with a token configured — exactly the rate-limit lines of
the 429 responses. -/
def proxyLogOf (respond : String → ProxyResp) (refs : List String) : List String :=
  refs.flatMap
    (fun r => if (respond r).status = 429 then rateLimitLog (respond r).retryAfter else [])

theorem proxyLoop_truthy_token (t : String) (ht : t ≠ "") (respond : String → ProxyResp) :
    ∀ (refs : List String) (st : ProxyState),
      proxyLoop (some t) respond refs st =
        ⟨proxyDataFold respond st.data refs, st.queried ++ refs,
          st.log ++ proxyLogOf respond refs⟩
  | [], st => by simp [proxyLoop, proxyDataFold, proxyLogOf]
  | r :: refs, st => by
    have htok : pyTruthy (some t) = true := by simp [pyTruthy, ht]
    by_cases h200 : (respond r).status = 200
    · simp [proxyLoop, h200, proxyLoop_truthy_token t ht respond refs, proxyDataFold,
        proxyLogOf]
    · by_cases h429 : (respond r).status = 429
      · simp [proxyLoop, h200, h429, htok, proxyLoop_truthy_token t ht respond refs,
          proxyDataFold, proxyLogOf]
      · simp [proxyLoop, h200, h429, proxyLoop_truthy_token t ht respond refs, proxyDataFold,
          proxyLogOf]

theorem proxyLoop_no429 (token : Option String) (respond : String → ProxyResp) :
    ∀ (refs : List String), (∀ p ∈ refs, (respond p).status ≠ 429) →
      ∀ (st : ProxyState),
        proxyLoop token respond refs st =
          ⟨proxyDataFold respond st.data refs, st.queried ++ refs, st.log⟩
  | [], _, st => by simp [proxyLoop, proxyDataFold]
  | r :: refs, h, st => by
    have hr : (respond r).status ≠ 429 := h r (by simp)
    have hrest : ∀ p ∈ refs, (respond p).status ≠ 429 := fun p hp => h p (by simp [hp])
    by_cases h200 : (respond r).status = 200
    · simp [proxyLoop, h200, proxyLoop_no429 token respond refs hrest, proxyDataFold]
    · simp [proxyLoop, h200, hr, proxyLoop_no429 token respond refs hrest, proxyDataFold]

theorem proxyLoop_none_429_break (respond : String → ProxyResp) :
    ∀ (pre : List String), (∀ p ∈ pre, (respond p).status ≠ 429) →
      ∀ (r : String), (respond r).status = 429 →
        ∀ (post : List String) (st : ProxyState),
          proxyLoop none respond (pre ++ r :: post) st =
            ⟨proxyDataFold respond st.data pre, st.queried ++ pre ++ [r],
              st.log ++ rateLimitLog (respond r).retryAfter ++ tokenGuidance⟩
  | [], _, r, hr, post, st => by
    simp [proxyLoop, hr, proxyDataFold, pyTruthy]
  | p :: pre, h, r, hr, post, st => by
    have hp : (respond p).status ≠ 429 := h p (by simp)
    have hrest : ∀ q ∈ pre, (respond q).status ≠ 429 := fun q hq => h q (by simp [hq])
    by_cases h200 : (respond p).status = 200
    · simp [proxyLoop, h200,
        proxyLoop_none_429_break respond pre hrest r hr post, proxyDataFold]
    · simp [proxyLoop, h200, hp,
        proxyLoop_none_429_break respond pre hrest r hr post, proxyDataFold]

/-- C1: in `get_proxy_vulnerabilities` with no token configured, when the
first HTTP 429 arrives for reference `r`, none of the references after `r`
is queried, and the returned result holds exactly the data accumulated by
the run over the references completed before the 429. -/
theorem c1_429_without_token_aborts_batch (respond : String → ProxyResp)
    (pre : List String) (r : String) (post : List String)
    (hpre : ∀ p ∈ pre, (respond p).status ≠ 429)
    (hr : (respond r).status = 429) :
    (get_proxy_vulnerabilities (pre ++ r :: post) none respond).queried = pre ++ [r] ∧
    (get_proxy_vulnerabilities (pre ++ r :: post) none respond).data =
      (get_proxy_vulnerabilities pre none respond).data := by
  unfold get_proxy_vulnerabilities
  rw [proxyLoop_none_429_break respond pre hpre r hr post,
    proxyLoop_no429 none respond pre hpre]
  simp

/-- Concrete run discharging C1's hypotheses: the second reference answers
429, the third is never queried, and the result equals the one-package
prefix run's data. -/
def c1respond : String → ProxyResp := fun r =>
  if r = "zlib/1.3" then ⟨200, [("zlib", JVal.s "ok")], none⟩
  else ⟨429, [("x", JVal.s "y")], some "60"⟩

theorem c1_429_without_token_aborts_batch_witness :
    (get_proxy_vulnerabilities ["zlib/1.3", "openssl/3.0", "boost/1.81"] none
        c1respond).queried = ["zlib/1.3", "openssl/3.0"] ∧
    (get_proxy_vulnerabilities ["zlib/1.3", "openssl/3.0", "boost/1.81"] none
        c1respond).data =
      (get_proxy_vulnerabilities ["zlib/1.3"] none c1respond).data :=
  c1_429_without_token_aborts_batch c1respond ["zlib/1.3"] "openssl/3.0" ["boost/1.81"]
    (by decide) (by decide)

/-- Responses for the C10 counterexample: the first reference succeeds,
every later reference answers 429 with an empty (falsy) `Retry-After`
header. -/
def c10respond : String → ProxyResp := fun r =>
  if r = "zlib/1.3" then ⟨200, [("zlib", JVal.s "ok")], none⟩
  else ⟨429, [("x", JVal.s "y")], some ""⟩

/-- C10 counterexample: the break condition is Python truthiness
(`if not token:`), not a None test — a SUPPLIED but empty token
(`--token=`) is falsy, so on the second reference's 429 the loop prints
the guidance and breaks: the third reference is never queried,
contradicting "when a token is supplied ... iteration continues with the
next package".  The log also shows no `Retry after` line: the empty
`Retry-After` header fails the code's truthiness check. -/
theorem c10_empty_token_still_aborts :
    (get_proxy_vulnerabilities ["zlib/1.3", "openssl/3.0", "boost/1.81"] (some "")
        c10respond).queried = ["zlib/1.3", "openssl/3.0"] ∧
    (get_proxy_vulnerabilities ["zlib/1.3", "openssl/3.0", "boost/1.81"] (some "")
        c10respond).queried ≠ ["zlib/1.3", "openssl/3.0", "boost/1.81"] ∧
    (get_proxy_vulnerabilities ["zlib/1.3", "openssl/3.0", "boost/1.81"] (some "")
        c10respond).log = "Rate limit exceeded" :: tokenGuidance := by
  decide

/-- C10 amended: in `get_proxy_vulnerabilities` with a truthy (non-empty)
token supplied, a 429 response does not abort the batch — every reference
in the list is queried, and the rate-limit message (plus the Retry-After
hint when the header is non-empty) is logged for each 429 — and every
response with a status other than 200 and 429 is silently skipped: the
returned result's data is exactly the merge of the 200 responses, with no
record of the skipped packages.  An empty-string token is falsy
(`if not token:`) and aborts the batch like a missing one. -/
theorem c10_429_with_truthy_token_continues (t : String) (ht : t ≠ "")
    (respond : String → ProxyResp) (refs : List String) :
    (get_proxy_vulnerabilities refs (some t) respond).queried = refs ∧
    (get_proxy_vulnerabilities refs (some t) respond).data =
      proxyDataFold respond [] refs ∧
    (get_proxy_vulnerabilities refs (some t) respond).log = proxyLogOf respond refs := by
  unfold get_proxy_vulnerabilities
  rw [proxyLoop_truthy_token t ht respond refs]
  simp

theorem c10_429_with_truthy_token_continues_witness :
    (get_proxy_vulnerabilities ["zlib/1.3", "openssl/3.0", "boost/1.81"] (some "secret")
        c10respond).queried = ["zlib/1.3", "openssl/3.0", "boost/1.81"] ∧
    (get_proxy_vulnerabilities ["zlib/1.3", "openssl/3.0", "boost/1.81"] (some "secret")
        c10respond).data =
      proxyDataFold c10respond [] ["zlib/1.3", "openssl/3.0", "boost/1.81"] ∧
    (get_proxy_vulnerabilities ["zlib/1.3", "openssl/3.0", "boost/1.81"] (some "secret")
        c10respond).log =
      proxyLogOf c10respond ["zlib/1.3", "openssl/3.0", "boost/1.81"] :=
  c10_429_with_truthy_token_continues "secret" (by decide) c10respond
    ["zlib/1.3", "openssl/3.0", "boost/1.81"]

/-- C2 counterexample: `list(set(...))` returns hash-table order, not
first-seen order.  The order `["b/2.0", "a/1.0"]` is an admissible
hash-table enumeration (duplicate-free and covering the refs), yet the
deduplicated sequence it yields for input
`[("a","1.0"), ("b","2.0")]` differs from the input's first-seen order. -/
theorem c2_set_order_not_first_seen :
    (["b/2.0", "a/1.0"].Nodup ∧
      ∀ x ∈ ([("a", "1.0"), ("b", "2.0")] : List (String × String)).map
          (fun nv => nv.1 ++ "/" ++ nv.2), x ∈ ["b/2.0", "a/1.0"]) ∧
    catalogRefs ["b/2.0", "a/1.0"] [("a", "1.0"), ("b", "2.0")] ≠
      firstSeenDedup (([("a", "1.0"), ("b", "2.0")] : List (String × String)).map
        (fun nv => nv.1 ++ "/" ++ nv.2)) := by
  decide

/-- C2 amended: the `catalog` command's graph-expansion paths query exactly
one reference per distinct `(name, version)` pair — the deduplicated list
is duplicate-free and holds precisely the refs of the input — but in the
hash-table iteration order of the Python set, not necessarily the
first-seen order of the input. -/
theorem c2_dedup_exactly_one_per_pair (tableOrder : List String)
    (nodes : List (String × String)) (hnd : tableOrder.Nodup)
    (hcov : ∀ x ∈ nodes.map (fun nv => nv.1 ++ "/" ++ nv.2), x ∈ tableOrder) :
    (catalogRefs tableOrder nodes).Nodup ∧
    ∀ x, x ∈ catalogRefs tableOrder nodes ↔
      x ∈ nodes.map (fun nv => nv.1 ++ "/" ++ nv.2) := by
  constructor
  · exact hnd.filter _
  · intro x
    simp only [catalogRefs, list_set, List.mem_filter, List.contains, List.elem_iff]
    exact ⟨fun h => h.2, fun h => ⟨hcov x h, h⟩⟩

theorem c2_dedup_exactly_one_per_pair_witness :
    (catalogRefs ["b/2.0", "a/1.0"] [("a", "1.0"), ("b", "2.0"), ("a", "1.0")]).Nodup ∧
    ("a/1.0" ∈ catalogRefs ["b/2.0", "a/1.0"] [("a", "1.0"), ("b", "2.0"), ("a", "1.0")] ↔
      "a/1.0" ∈ ([("a", "1.0"), ("b", "2.0"), ("a", "1.0")] : List (String × String)).map
        (fun nv => nv.1 ++ "/" ++ nv.2)) :=
  ⟨(c2_dedup_exactly_one_per_pair ["b/2.0", "a/1.0"]
      [("a", "1.0"), ("b", "2.0"), ("a", "1.0")] (by decide) (by decide)).1,
    (c2_dedup_exactly_one_per_pair ["b/2.0", "a/1.0"]
      [("a", "1.0"), ("b", "2.0"), ("a", "1.0")] (by decide) (by decide)).2 "a/1.0"⟩

/-- Concrete collaborators for the transitive OSV audit: the GitHub API is
unreachable (so commit resolution fails), `zlib`'s recipe has a github
archive URL, and only `openssl/3.0` has a finding. -/
def c3env : AuditOsvEnv :=
  ⟨fun p =>
      match p with
      | .registry n v =>
        if n = "openssl" && v = "3.0" then
          [("vulns", JVal.vulnList [⟨"CVE-1", "desc"⟩])]
        else []
      | .commit _ => [],
    fun n _ =>
      if n = "zlib" then some "https://github.com/madler/zlib/archive/v1.0.0.tar.gz"
      else none,
    fun _ => .error "network unreachable"⟩

/-- C3 counterexample: commit resolution for `zlib/1.0.cci` fails (the
GitHub lookup raises and `except: pass` returns `None`), yet the package's
report is the bare `{"ref": ...}` dict — empty findings but NO recorded
error: it has no `queryError` (nor any other) error field, contrary to the
claim that a failed resolution yields a report with `queryError` set. -/
theorem c3_failed_package_has_no_query_error :
    audit_get_commit_hash c3env.gh
        "https://github.com/madler/zlib/archive/v1.0.0.tar.gz" "v1.0.0" = none ∧
    (audit_osv_run c3env [("zlib", "1.0.cci"), ("openssl", "3.0")]).1 =
      [[("ref", JVal.s "zlib/1.0.cci")],
       [("vulns", JVal.vulnList [⟨"CVE-1", "desc"⟩]), ("ref", JVal.s "openssl/3.0")]] ∧
    objGet [("ref", JVal.s "zlib/1.0.cci")] "queryError" = none := by
  decide

/-- C3 amended: in `audit/cmd_osv.py` every dependency of the batch yields
exactly one report (a per-package resolution or query failure never aborts
the remaining iterations), and a package whose query produced no body
degrades to the bare `{"ref": name/version}` report — empty findings with
no error annotation of any kind (`queryError` in particular is absent).
The catalog 429-without-credentials abort is the separate proxy-client
behavior of C1. -/
theorem c3_failures_degrade_and_batch_continues (env : AuditOsvEnv)
    (deps : List (String × String)) :
    (audit_osv_run env deps).1 = deps.map (fun nv => audit_osv_report env nv.1 nv.2) ∧
    ∀ n v, (get_vulnerabilities env n v).1 = [] →
      audit_osv_report env n v = [("ref", JVal.s (n ++ "/" ++ v))] ∧
      objGet (audit_osv_report env n v) "queryError" = none := by
  constructor
  · induction deps with
    | nil => simp [audit_osv_run]
    | cons d rest ih => simp [audit_osv_run, ih]
  · intro n v h
    have hrep : audit_osv_report env n v = [("ref", JVal.s (n ++ "/" ++ v))] := by
      simp [audit_osv_report, h, dictUpdate, objGet]
    refine ⟨hrep, ?_⟩
    rw [hrep]
    simp [objGet]

theorem c3_failures_degrade_and_batch_continues_witness :
    ((audit_osv_run c3env [("zlib", "1.0.cci")]).1 =
      [("zlib", "1.0.cci")].map (fun nv => audit_osv_report c3env nv.1 nv.2)) ∧
    (audit_osv_report c3env "zlib" "1.0.cci" = [("ref", JVal.s "zlib/1.0.cci")] ∧
      objGet (audit_osv_report c3env "zlib" "1.0.cci") "queryError" = none) :=
  ⟨(c3_failures_degrade_and_batch_continues c3env [("zlib", "1.0.cci")]).1,
    (c3_failures_degrade_and_batch_continues c3env [("zlib", "1.0.cci")]).2
      "zlib" "1.0.cci" (by decide)⟩

/-- C4 counterexample: `audit/cmd_osv.py`'s `extract_tag` only examines
URLs containing `"github"`.  On the spec's own example URL — an
`/download/vX.Y.Z/` shape on a non-github host — it returns `None` rather
than the embedded version `v2.1.0` (which the `security/cmd_osv.py`
variant does return), and its caller has no literal-version fallback. -/
theorem c4_audit_variant_not_total :
    AuditOsv.extract_tag ["https://example.com/releases/download/v2.1.0/lib.tar.gz"] = none ∧
    SecOsv.extract_tag "https://example.com/releases/download/v2.1.0/lib.tar.gz" =
      some "v2.1.0" := by
  decide

/-- C4 amended: in the `security/cmd_osv.py` (and `security/cmd_audit.py`)
variant, tag extraction is total with the documented fallback: each of the
three recognized URL shapes yields its embedded version/tag string, and for
a URL matching none of the shapes the literal package version is used as
the tag.  In the `audit/cmd_osv.py` variant, extraction only applies to
URLs containing `"github"` — any other URL yields no tag at all (the commit
query is skipped; there is no literal-version fallback). -/
theorem c4_tag_extraction_total_in_security_variant (url version : String)
    (urls : List String) (hmiss : SecOsv.extract_tag url = none)
    (hng : ∀ u ∈ urls, substr "github" u = false) :
    sec_tag url version = version ∧
    AuditOsv.extract_tag urls = none ∧
    SecOsv.extract_tag "https://example.com/releases/download/v2.1.0/lib.tar.gz" =
      some "v2.1.0" ∧
    SecOsv.extract_tag "https://github.com/madler/zlib/archive/v1.3.0.tar.gz" =
      some "v1.3.0" ∧
    SecOsv.extract_tag "https://github.com/conan-io/proj/releases/tags/release-1.2.tar.gz" =
      some "release-1.2" := by
  refine ⟨?_, ?_, by decide, by decide, by decide⟩
  · simp [sec_tag, hmiss, pyOrStr]
  · have hfil : urls.filter (fun u => substr "github" u) = [] := by
      rw [List.filter_eq_nil_iff]
      intro u hu
      simp [hng u hu]
    simp [AuditOsv.extract_tag, hfil]

theorem c4_tag_extraction_total_in_security_variant_witness :
    sec_tag "https://x.com/a.zip" "1.3" = "1.3" ∧
    AuditOsv.extract_tag ["https://x.com/a.zip"] = none ∧
    SecOsv.extract_tag "https://example.com/releases/download/v2.1.0/lib.tar.gz" =
      some "v2.1.0" ∧
    SecOsv.extract_tag "https://github.com/madler/zlib/archive/v1.3.0.tar.gz" =
      some "v1.3.0" ∧
    SecOsv.extract_tag "https://github.com/conan-io/proj/releases/tags/release-1.2.tar.gz" =
      some "release-1.2" :=
  c4_tag_extraction_total_in_security_variant "https://x.com/a.zip" "1.3"
    ["https://x.com/a.zip"] (by decide) (by decide)

theorem OsvPayload.isReg_eq_not_isCom (p : OsvPayload) : p.isReg = !p.isCom := by
  cases p <;> rfl

theorem audit_commit_branch_queries (env : AuditOsvEnv) (n v : String)
    (sent : List OsvPayload) :
    (audit_commit_branch env n v sent).2 =
      sent ++ ((audit_osv_payload_commit env n v).map (fun p => [p])).getD [] := by
  cases h : audit_osv_payload_commit env n v <;> simp [audit_commit_branch, h]

theorem filter_singleton_le_one {α : Type} (p : α → Bool) (a : α) :
    (List.filter p [a]).length ≤ 1 := by
  by_cases h : p a <;> simp [h]

theorem audit_osv_payload_commit_isCom (env : AuditOsvEnv) (n v : String) :
    ∀ p, audit_osv_payload_commit env n v = some p → p.isCom = true := by
  intro p h
  cases p with
  | commit hh => rfl
  | registry a b =>
    exfalso
    unfold audit_osv_payload_commit at h
    repeat (first | split at h | (obtain ⟨_, h⟩ := h))

/-- Concrete collaborators under which the registry response is empty and
commit resolution succeeds, so `audit/cmd_osv.py` sends two queries for one
package. -/
def c5env : AuditOsvEnv :=
  ⟨fun p =>
      match p with
      | .registry _ _ => []
      | .commit _ => [("vulns", JVal.vulnList [])],
    fun _ _ => some "https://github.com/madler/zlib/archive/v1.3.0.tar.gz",
    fun u =>
      if u = "https://api.github.com/repos/madler/zlib/git/ref/tags/v1.3.0" then
        .ok ⟨some ⟨some "https://api.github.com/commit1", none⟩, none⟩
      else if u = "https://api.github.com/commit1" then
        .ok ⟨some ⟨none, some "abc123"⟩, none⟩
      else .error "404"⟩

/-- C5 counterexample: for the single package `zlib/1.3`,
`audit/cmd_osv.py`'s `get_vulnerabilities` first POSTs the registry
`{name, version}` query and then — because the registry response was an
empty (falsy) body — ALSO POSTs a commit-hash query for the same package:
both QueryKey variants are sent, contradicting "never both". -/
theorem c5_audit_variant_sends_both_variants :
    (get_vulnerabilities c5env "zlib" "1.3").2 =
      [OsvPayload.registry "zlib" "1.3", OsvPayload.commit (some "abc123")] ∧
    (∃ p ∈ (get_vulnerabilities c5env "zlib" "1.3").2, p.isReg = true) ∧
    (∃ p ∈ (get_vulnerabilities c5env "zlib" "1.3").2, p.isCom = true) := by
  decide

/-- C5 amended: `security/cmd_osv.py` builds exactly one payload per call,
which is exactly one of the two QueryKey variants; `audit/cmd_osv.py`
sends at most one registry query and at most one commit query per package,
but when the version has no `"cci"` marker and the registry response is
empty it sends both variants — registry first, then commit. -/
theorem c5_one_query_per_variant (env : AuditOsvEnv) (n v : String)
    (senv : SecOsvEnv) (uc : Option String) :
    (((get_vulnerabilities env n v).2.filter (fun p => p.isReg)).length ≤ 1 ∧
     ((get_vulnerabilities env n v).2.filter (fun p => p.isCom)).length ≤ 1) ∧
    (∀ p, sec_get_osv_payload senv n v uc = .ok p →
      (p.isReg = true ∧ p.isCom = false) ∨ (p.isReg = false ∧ p.isCom = true)) := by
  constructor
  · unfold get_vulnerabilities
    by_cases hc : substr "cci" v
    · cases h : audit_osv_payload_commit env n v with
      | none => simp [hc, audit_commit_branch_queries, h]
      | some p =>
        simp [hc, audit_commit_branch_queries, h, filter_singleton_le_one]
    · by_cases he : (env.osvResp (OsvPayload.registry n v)).isEmpty
      · cases h : audit_osv_payload_commit env n v with
        | none =>
          simp [hc, he, audit_commit_branch_queries, h, OsvPayload.isReg, OsvPayload.isCom]
        | some p =>
          have hp := audit_osv_payload_commit_isCom env n v p h
          cases p with
          | registry a b => simp [OsvPayload.isCom] at hp
          | commit hh =>
            simp [hc, he, audit_commit_branch_queries, h, OsvPayload.isReg, OsvPayload.isCom]
      · simp [hc, he, OsvPayload.isReg, OsvPayload.isCom]
  · intro p _
    cases p with
    | registry a b => exact Or.inl ⟨rfl, rfl⟩
    | commit h => exact Or.inr ⟨rfl, rfl⟩

theorem c5_one_query_per_variant_witness :
    (((get_vulnerabilities c5env "zlib" "1.3").2.filter (fun p => p.isReg)).length ≤ 1 ∧
     ((get_vulnerabilities c5env "zlib" "1.3").2.filter (fun p => p.isCom)).length ≤ 1) ∧
    (((OsvPayload.registry "zlib" "1.3").isReg = true ∧
        (OsvPayload.registry "zlib" "1.3").isCom = false) ∨
      ((OsvPayload.registry "zlib" "1.3").isReg = false ∧
        (OsvPayload.registry "zlib" "1.3").isCom = true)) :=
  ⟨(c5_one_query_per_variant c5env "zlib" "1.3"
      ⟨fun _ _ => none, fun _ => .error "x"⟩ none).1,
    (c5_one_query_per_variant c5env "zlib" "1.3"
      ⟨fun _ _ => none, fun _ => .error "x"⟩ none).2
      (OsvPayload.registry "zlib" "1.3") (by decide)⟩

theorem splitSlash_append (a : List Char) (h : '/' ∉ a) (b : List Char) :
    splitSlash (a ++ '/' :: b) = a :: splitSlash b := by
  induction a with
  | nil => simp [splitSlash]
  | cons c a ih =>
    have hc : ¬c = '/' := fun e => h (by simp [e])
    have ha : '/' ∉ a := fun e => h (by simp [e])
    simp [splitSlash, hc, ih ha]

theorem gh_try_body_first_query (gh : GhFun) (url tag : String) :
    (gh_try_body gh url tag).2.head? = some (ghRefUrl url tag) := by
  unfold gh_try_body gh_body_at
  repeat' split
  all_goals rfl

theorem sec_get_commit_hash_first_query (gh : GhFun) (url tag : String) :
    (sec_get_commit_hash gh url tag).2.head? = some (ghRefUrl url tag) := by
  have hfirst := gh_try_body_first_query gh url tag
  rcases hb : gh_try_body gh url tag with ⟨r, q⟩
  rw [hb] at hfirst
  cases r <;> simp [sec_get_commit_hash, hb] <;> simpa using hfirst

theorem aud_get_commit_hash_first_query (gh : GhFun) (url tag : String) :
    (aud_get_commit_hash gh url tag).2.head? = some (ghRefUrl url tag) := by
  unfold aud_get_commit_hash aud_body_at
  repeat' split
  all_goals rfl

/-- A GitHub oracle that answers the malformed repo URL produced from a
nonconforming download URL. -/
def c6gh : GhFun := fun u =>
  if u = "https://api.github.com/repos//git/ref/tags/v1" then
    .ok ⟨some ⟨some "https://api.github.com/c1", none⟩, none⟩
  else if u = "https://api.github.com/c1" then
    .ok ⟨some ⟨none, some "feedbeef"⟩, none⟩
  else .error "404"

/-- C6 counterexample: for the nonconforming URL `"notaurl"` (no
`https://host/org/project/...` shape), `get_commit_hash` does not fail
with any `UnsupportedHostError` — no such validation (or error kind)
exists.  The slice `[3:5]` silently yields an empty `org_project`, the
function proceeds to query the GitHub API with the malformed repo path,
and here even returns a commit hash successfully. -/
theorem c6_nonconforming_url_proceeds :
    org_project "notaurl" = "" ∧
    (sec_get_commit_hash c6gh "notaurl" "v1").2 =
      ["https://api.github.com/repos//git/ref/tags/v1",
       "https://api.github.com/c1", "https://api.github.com/c1"] ∧
    (sec_get_commit_hash c6gh "notaurl" "v1").1 = .ok (some "feedbeef") := by
  decide

/-- C6 amended: the commit resolver takes `"/".join(url.split("/")[3:5])`
— for a conforming `scheme://host/org/proj/...` URL this is the `org/proj`
pair (0-based segments 3-4, i.e. the 4th and 5th) — but it performs no URL
shape validation at all: for EVERY url (conforming or not) both
`get_commit_hash` variants proceed straight to the GitHub tag-reference
lookup built from whatever the slice produced; failures surface only as
the generic `ConanException` of `security/cmd_osv.py` (or an uncaught
exception in `security/cmd_audit.py`) when a lookup fails. -/
theorem c6_org_project_slice_no_validation (scheme host org proj rest : List Char)
    (h1 : '/' ∉ scheme) (h2 : '/' ∉ host) (h3 : '/' ∉ org) (h4 : '/' ∉ proj)
    (gh : GhFun) (url tag : String) :
    orgProjL (scheme ++ '/' :: '/' :: (host ++ '/' :: (org ++ '/' :: (proj ++ '/' :: rest)))) =
      org ++ '/' :: proj ∧
    (sec_get_commit_hash gh url tag).2.head? = some (ghRefUrl url tag) ∧
    (aud_get_commit_hash gh url tag).2.head? = some (ghRefUrl url tag) := by
  refine ⟨?_, sec_get_commit_hash_first_query gh url tag,
    aud_get_commit_hash_first_query gh url tag⟩
  rw [orgProjL, splitSlash_append scheme h1]
  show joinSlash ((((splitSlash ('/' :: (host ++ '/' :: (org ++ '/' :: (proj ++ '/' :: rest))))).drop 2).take 2)) = _
  rw [show splitSlash ('/' :: (host ++ '/' :: (org ++ '/' :: (proj ++ '/' :: rest)))) =
      [] :: splitSlash (host ++ '/' :: (org ++ '/' :: (proj ++ '/' :: rest))) from by
    simp [splitSlash]]
  rw [splitSlash_append host h2, splitSlash_append org h3, splitSlash_append proj h4]
  simp [joinSlash]

theorem c6_org_project_slice_no_validation_witness :
    orgProjL ("https:".toList ++ '/' :: '/' :: ("github.com".toList ++ '/' ::
        ("madler".toList ++ '/' :: ("zlib".toList ++ '/' :: "archive/v1.3.tar.gz".toList)))) =
      "madler".toList ++ '/' :: "zlib".toList ∧
    (sec_get_commit_hash c6gh "u" "t").2.head? = some (ghRefUrl "u" "t") ∧
    (aud_get_commit_hash c6gh "u" "t").2.head? = some (ghRefUrl "u" "t") :=
  c6_org_project_slice_no_validation "https:".toList "github.com".toList "madler".toList
    "zlib".toList "archive/v1.3.tar.gz".toList (by decide) (by decide) (by decide)
    (by decide) c6gh "u" "t"

theorem audit_osv_render_fold (reports : List OsvReportJson) :
    ∀ acc : RenderOut,
      reports.foldl audit_osv_render_step acc =
        ⟨acc.rows ++ (reports.filter (fun r => !r.vulns.isEmpty)).flatMap osvRowsOf,
         acc.noVulnRefs ++ (reports.filter (fun r => r.vulns.isEmpty)).map
           (fun r => "[green]" ++ pyStrOpt r.ref ++ "[/]"),
         acc.total + (reports.map (fun r => r.vulns.length)).sum,
         acc.tableShown⟩ := by
  induction reports with
  | nil => intro acc; simp
  | cons r rest ih =>
    intro acc
    by_cases hv : r.vulns.isEmpty
    · have h0 : r.vulns.length = 0 := by
        rw [List.isEmpty_iff] at hv
        simp [hv]
      simp [audit_osv_render_step, hv, ih, h0]
    · simp [audit_osv_render_step, hv, ih, Nat.add_assoc]

theorem audit_catalog_render_fold (items : List (String × CatLib)) :
    ∀ acc : RenderOut,
      items.foldl audit_catalog_render_step acc =
        ⟨acc.rows ++ (items.filter (fun kv => !kv.2.edges.isEmpty)).flatMap
           (fun kv => catRowsOf kv.1 kv.2),
         acc.noVulnRefs ++ (items.filter (fun kv => kv.2.edges.isEmpty)).map
           (fun kv => "[white]" ++ kv.1 ++ "/" ++ kv.2.version ++ "[/]"),
         acc.total + (items.map (fun kv => kv.2.edges.length)).sum,
         acc.tableShown⟩ := by
  induction items with
  | nil => intro acc; simp
  | cons kv rest ih =>
    intro acc
    by_cases hv : kv.2.edges.isEmpty
    · have h0 : kv.2.edges.length = 0 := by
        rw [List.isEmpty_iff] at hv
        simp [hv]
      simp [audit_catalog_render_step, hv, ih, h0]
    · simp [audit_catalog_render_step, hv, ih, Nat.add_assoc]

/-- C7 counterexample: `security/cmd_catalog.py`'s renderer puts a package
with an empty findings list INSIDE the table, as a
`"no vulnerabilities found"` row — there is no separate summary bucket in
this renderer, contradicting "never appears as a row/section of the
findings table". -/
theorem c7_sec_catalog_renders_empty_as_table_row :
    (sec_catalog_render [some ⟨"zlib", "1.3", []⟩]).1 =
      [SecCatRow.noVulnNote "[green]zlib/1.3: no vulnerabilities found[/]"] ∧
    (sec_catalog_render [some ⟨"zlib", "1.3", []⟩]).1 ≠ [] := by
  decide

/-- C7 amended: in the `audit/cmd_osv.py` and `audit/cmd_catalog.py`
renderers the claim holds — the table rows come exactly from the packages
with at least one finding and every empty-findings package goes exactly to
the "no vulnerabilities found in" summary bucket.  The
`security/cmd_catalog.py` renderer instead adds a
`"no vulnerabilities found"` row to the table itself for such a package. -/
theorem c7_empty_reports_in_summary_bucket (reports : List OsvReportJson)
    (items : List (String × CatLib)) (errKey : Bool) (pv : SecCatPkgVer)
    (hpv : pv.edges = []) :
    ((audit_osv_render reports).rows =
        (reports.filter (fun r => !r.vulns.isEmpty)).flatMap osvRowsOf ∧
      (audit_osv_render reports).noVulnRefs =
        (reports.filter (fun r => r.vulns.isEmpty)).map
          (fun r => "[green]" ++ pyStrOpt r.ref ++ "[/]")) ∧
    ((audit_catalog_render ⟨false, some items⟩).1.rows =
        (items.filter (fun kv => !kv.2.edges.isEmpty)).flatMap
          (fun kv => catRowsOf kv.1 kv.2) ∧
      (audit_catalog_render ⟨false, some items⟩).1.noVulnRefs =
        (items.filter (fun kv => kv.2.edges.isEmpty)).map
          (fun kv => "[white]" ++ kv.1 ++ "/" ++ kv.2.version ++ "[/]")) ∧
    ((audit_catalog_render ⟨errKey, none⟩).1.rows = [] ∧
      (audit_catalog_render ⟨errKey, none⟩).2 = true) ∧
    (sec_catalog_render [some pv]).1 =
      [SecCatRow.noVulnNote
        ("[green]" ++ pv.pkgName ++ "/" ++ pv.version ++ ": no vulnerabilities found[/]")] := by
  refine ⟨?_, ?_, ?_, ?_⟩
  · rw [audit_osv_render, audit_osv_render_fold]
    exact ⟨rfl, rfl⟩
  · rw [audit_catalog_render]
    simp only []
    rw [audit_catalog_render_fold]
    exact ⟨rfl, rfl⟩
  · cases errKey <;> simp [audit_catalog_render]
  · have hv : pv.edges.isEmpty = true := by simp [hpv]
    simp [sec_catalog_render, sec_catalog_render_step, hv]

theorem c7_empty_reports_in_summary_bucket_witness :
    ((audit_osv_render [⟨[], some "zlib/1.3"⟩]).rows =
        (([⟨[], some "zlib/1.3"⟩] : List OsvReportJson).filter
          (fun r => !r.vulns.isEmpty)).flatMap osvRowsOf ∧
      (audit_osv_render [⟨[], some "zlib/1.3"⟩]).noVulnRefs =
        (([⟨[], some "zlib/1.3"⟩] : List OsvReportJson).filter
          (fun r => r.vulns.isEmpty)).map
            (fun r => "[green]" ++ pyStrOpt r.ref ++ "[/]")) ∧
    ((audit_catalog_render ⟨false, some [("zlib", ⟨"1.3", []⟩)]⟩).1.rows =
        (([("zlib", ⟨"1.3", []⟩)] : List (String × CatLib)).filter
          (fun kv => !kv.2.edges.isEmpty)).flatMap (fun kv => catRowsOf kv.1 kv.2) ∧
      (audit_catalog_render ⟨false, some [("zlib", ⟨"1.3", []⟩)]⟩).1.noVulnRefs =
        (([("zlib", ⟨"1.3", []⟩)] : List (String × CatLib)).filter
          (fun kv => kv.2.edges.isEmpty)).map
            (fun kv => "[white]" ++ kv.1 ++ "/" ++ kv.2.version ++ "[/]")) ∧
    ((audit_catalog_render ⟨true, none⟩).1.rows = [] ∧
      (audit_catalog_render ⟨true, none⟩).2 = true) ∧
    (sec_catalog_render [some ⟨"openssl", "3.0", []⟩]).1 =
      [SecCatRow.noVulnNote "[green]openssl/3.0: no vulnerabilities found[/]"] :=
  c7_empty_reports_in_summary_bucket [⟨[], some "zlib/1.3"⟩] [("zlib", ⟨"1.3", []⟩)]
    true ⟨"openssl", "3.0", []⟩ (by decide)

/-- C8: when no catalog endpoint URL is configured (neither the flag nor
the environment variable supplied a value), the `catalog` command of
`security/cmd_catalog.py` performs zero GraphQL queries, and as soon as
there is a dependency to process it aborts with the user-facing
`ConanException` message — which the per-iteration check raises before the
first POST. -/
theorem c8_missing_catalog_url_zero_queries {α : Type}
    (username password : Option String) (respond : GqlQuery → α)
    (deps : List (String × String)) :
    (sec_catalog_run none username password respond deps).2 = [] ∧
    (deps ≠ [] →
      (sec_catalog_run none username password respond deps).1 =
        .error catalogUrlMsg) := by
  cases deps with
  | nil => exact ⟨rfl, fun h => absurd rfl h⟩
  | cons d rest => exact ⟨rfl, fun _ => rfl⟩

theorem c8_missing_catalog_url_zero_queries_witness :
    (sec_catalog_run none none none (fun _ => (0 : Nat)) [("zlib", "1.3")]).2 = [] ∧
    (sec_catalog_run none none none (fun _ => (0 : Nat)) [("zlib", "1.3")]).1 =
      .error catalogUrlMsg :=
  ⟨(c8_missing_catalog_url_zero_queries none none (fun _ => (0 : Nat)) [("zlib", "1.3")]).1,
    (c8_missing_catalog_url_zero_queries none none (fun _ => (0 : Nat)) [("zlib", "1.3")]).2
      (by decide)⟩

/-- C9: in Auto mode (no explicit `--use-commit` override), the resolvers
inspect the version string for the `"cci"` community-index marker: without
the marker they build the registry `{name, version}` payload
(`security/cmd_osv.py` with `use_commit=None`, `security/cmd_audit.py` with
`use_commit=False`, and `audit/cmd_osv.py`, whose first POSTed query is the
registry one); with the marker they take the commit flow — any payload
built is a commit-hash payload, and every query `audit/cmd_osv.py` sends is
a commit query. -/
theorem c9_auto_mode_cci_marker_dispatch (senv : SecOsvEnv) (env : AuditOsvEnv)
    (name version : String) :
    (substr "cci" version = false →
      sec_get_osv_payload senv name version none = .ok (.registry name version) ∧
      aud_get_osv_payload senv name version false = .ok (.registry name version) ∧
      (get_vulnerabilities env name version).2.head? =
        some (.registry name version)) ∧
    (substr "cci" version = true →
      (∀ p, sec_get_osv_payload senv name version none = .ok p → ∃ h, p = .commit h) ∧
      (∀ p, aud_get_osv_payload senv name version false = .ok p → ∃ h, p = .commit h) ∧
      (∀ p ∈ (get_vulnerabilities env name version).2, p.isCom = true)) := by
  constructor
  · intro h
    refine ⟨by simp [sec_get_osv_payload, h], by simp [aud_get_osv_payload, h], ?_⟩
    unfold get_vulnerabilities
    by_cases he : (env.osvResp (OsvPayload.registry name version)).isEmpty
    · simp [h, he, audit_commit_branch_queries]
    · simp [h, he]
  · intro h
    refine ⟨?_, ?_, ?_⟩
    · intro p hp
      simp only [sec_get_osv_payload, h, Bool.true_or, if_true] at hp
      repeat (first | split at hp | (obtain ⟨_, hp⟩ := hp))
      all_goals simp_all
    · intro p hp
      simp only [aud_get_osv_payload, h, Bool.true_or, if_true] at hp
      repeat (first | split at hp | (obtain ⟨_, hp⟩ := hp))
      all_goals simp_all
    · intro p hp
      unfold get_vulnerabilities at hp
      rw [if_pos h, audit_commit_branch_queries] at hp
      cases hc : audit_osv_payload_commit env name version with
      | none => rw [hc] at hp; simp at hp
      | some q =>
        rw [hc] at hp
        simp at hp
        rw [hp]
        exact audit_osv_payload_commit_isCom env name version q hc

/-- A GitHub oracle that resolves zlib's tag to a commit hash (with both
the tag-object and top-level `sha` fields populated). -/
def c9gh : GhFun := fun u =>
  if u = "https://api.github.com/repos/madler/zlib/git/ref/tags/v1.3.0" then
    .ok ⟨some ⟨some "https://api.github.com/commit1", none⟩, none⟩
  else if u = "https://api.github.com/commit1" then
    .ok ⟨some ⟨none, some "abc123"⟩, some "abc123"⟩
  else .error "404"

/-- Security-variant collaborators with a resolvable github archive URL. -/
def c9senv : SecOsvEnv :=
  ⟨fun _ _ => some "https://github.com/madler/zlib/archive/v1.3.0.tar.gz", c9gh⟩

/-- Audit-variant collaborators: empty OSV responses, same source URL and
GitHub oracle. -/
def c9env : AuditOsvEnv :=
  ⟨fun _ => [], fun _ _ => some "https://github.com/madler/zlib/archive/v1.3.0.tar.gz", c9gh⟩

theorem c9_auto_mode_cci_marker_dispatch_witness :
    (sec_get_osv_payload c9senv "zlib" "1.3" none = .ok (.registry "zlib" "1.3") ∧
      aud_get_osv_payload c9senv "zlib" "1.3" false = .ok (.registry "zlib" "1.3") ∧
      (get_vulnerabilities c9env "zlib" "1.3").2.head? =
        some (.registry "zlib" "1.3")) ∧
    (∃ h, (OsvPayload.commit (some "abc123")) = OsvPayload.commit h) ∧
    (∃ h, (OsvPayload.commit (some "abc123")) = OsvPayload.commit h) ∧
    (OsvPayload.commit (some "abc123")).isCom = true :=
  ⟨(c9_auto_mode_cci_marker_dispatch c9senv c9env "zlib" "1.3").1 (by decide),
    ((c9_auto_mode_cci_marker_dispatch c9senv c9env "zlib" "1.0-cci").2 (by decide)).1
      (OsvPayload.commit (some "abc123")) (by decide),
    ((c9_auto_mode_cci_marker_dispatch c9senv c9env "zlib" "1.0-cci").2 (by decide)).2.1
      (OsvPayload.commit (some "abc123")) (by decide),
    ((c9_auto_mode_cci_marker_dispatch c9senv c9env "zlib" "1.0-cci").2 (by decide)).2.2
      (OsvPayload.commit (some "abc123")) (by decide)⟩
